import Mathlib

/-!
Verification of the checkout and settlement engine of the smartsales365
backend (Django/DRF).  The development shallowly embeds the code of
apps/ventas/views.py (shipping calculator and the Stripe session
verification endpoint), apps/ventas/models.py (the post-save signal on
Venta), apps/auditoria/utils.py (the audit-log sink) and the declared
field sets of the relevant model classes.

Representation of amounts: every Decimal column involved is declared
with decimal_places=2 and every amount flowing through the endpoint is
an exact multiple of 0.01 (prices are stored with two places, the
charged amount arrives as integer cents, sums and comparisons of such
values are exact in Python Decimal).  Amounts are therefore modelled as
integer numbers of cents.  The two rounding points of the source are
modelled by explicit integer functions: roundHalfEvenDiv embeds
Decimal.quantize(Decimal(0.01)) under its default ROUND_HALF_EVEN mode,
and truncTowardZero embeds the int(...) conversion Django applies when
persisting a Decimal into an IntegerField column.

Integer database columns are Int; the relational store is lists of
rows; an aborting transaction returns the original database (rollback
semantics of transaction.atomic); raised exceptions are values of an
error type carried by Except.

Note on the cart schema: comercial/models.py declares Carrito with
fields (id, fecha_creacion, tienda, cliente) and Detalle_Carrito with
(id, cantidad, producto, carrito), while the settlement path passes
the extra keyword arguments total and precio_unitario when creating
these rows.  Django Model initialization raises TypeError on a keyword
naming no declared field, so in the source the Carrito creation at
views.py line 235 raises on every run, before the item loop, the
reconciliation gate and all row creation; the exception is caught at
line 310 and answered 500 with the transaction rolled back.  The
embedding models this faithfully: crearCarrito (and the line-item
construction inside the loop) validates its keyword arguments against
the declared columns and raises, so the pipeline downstream of it is
dead code here exactly as in the source; it is still embedded in full,
both for reference and because the C5 theorems are about precisely
this discrepancy.
-/

/-- Rounding of the fraction a / b (with b positive) to the nearest
integer with ties going to the even integer: the ROUND_HALF_EVEN mode
that Python Decimal.quantize uses by default, on the scale of the
target quantum. -/
def roundHalfEvenDiv (a b : ℤ) : ℤ :=
  let q := a.ediv b
  let r := a.emod b
  if 2 * r < b then q
  else if b < 2 * r then q + 1
  else if q % 2 = 0 then q else q + 1

/-- Truncation of the fraction a / b (with b positive) toward zero: the
int(...) conversion Python applies to a Decimal, used by Django when it
persists into an IntegerField column. -/
def truncTowardZero (a b : ℤ) : ℤ :=
  if 0 ≤ a then a.ediv b else -((-a).ediv b)

/-- Shipping cost from the subtotal, embedding calcular_costo_envio of
apps/ventas/views.py lines 28 to 45: a tiered percentage of the
subtotal, quantized to two decimal places.  Both the argument and the
result are amounts in cents, so the tier bounds 100, 500 and 1000 of
the source become 10000, 50000 and 100000, and the quantization of
subtotal * (porcentaje / 100) to a whole number of cents is
roundHalfEvenDiv (subtotal * porcentaje) 100. -/
def calcular_costo_envio (subtotal : ℤ) : ℤ :=
  let porcentaje_envio : ℤ :=
    if subtotal = 0 then 0
    else if subtotal < 10000 then 15
    else if subtotal < 50000 then 10
    else if subtotal < 100000 then 5
    else 0
  roundHalfEvenDiv (subtotal * porcentaje_envio) 100

/-- Tier table exactly as the specification words it: 0 percent at
subtotal 0, 15 percent for 0 < subtotal < 100, 10 percent for
100 <= subtotal < 500, 5 percent for 500 <= subtotal < 1000 and
0 percent from 1000 on (bounds in cents). -/
def shippingPctSpec (q : ℤ) : ℤ :=
  if q = 0 then 0
  else if 0 < q ∧ q < 10000 then 15
  else if 10000 ≤ q ∧ q < 50000 then 10
  else if 50000 ≤ q ∧ q < 100000 then 5
  else 0

/-- Product row: comercial/models.py class Producto (the fields the
settlement path reads and writes); precio in cents. -/
structure Producto where
  id : ℕ
  nombre : String
  precio : ℤ
  stock : ℤ
  tienda : ℕ
  estado : Bool
deriving DecidableEq

/-- Cart row as the create call at views.py line 235 names it.  The
total column is among the creation kwargs even though the model class
does not declare it, so in the source this row is never persisted: the
creation raises TypeError (see crearCarrito and the C5 theorems); the
type records the values the call names. -/
structure Carrito where
  id : ℕ
  cliente : ℕ
  tienda : ℕ
  total : ℤ
deriving DecidableEq

/-- Cart line item as the constructor at views.py lines 251 to 258
names it; precio_unitario likewise has no declared column, so in the
source this construction raises TypeError too (see the guard inside
procesarItems and the C5 theorems) and no such row is ever staged or
persisted. -/
structure Detalle_Carrito where
  carrito : ℕ
  producto : ℕ
  cantidad : ℤ
  precio_unitario : ℤ
deriving DecidableEq

/-- Sale row: ventas/models.py class Venta. -/
structure Venta where
  id : ℕ
  total : ℤ
  estado : String
  tienda : ℕ
  cliente : ℕ
  carrito : ℕ
  vendedor : Option ℕ
deriving DecidableEq

/-- Sale line item: ventas/models.py class Detalle_Venta. -/
structure Detalle_Venta where
  venta : ℕ
  producto : ℕ
  cantidad : ℤ
  precio_historico : ℤ
deriving DecidableEq

/-- Payment row: ventas/models.py class Pago; stripe_payment_intent_id
carries a unique constraint. -/
structure Pago where
  venta : ℕ
  tienda : ℕ
  stripe_payment_intent_id : String
  monto_total : ℤ
  estado : String
deriving DecidableEq

/-- Shipment row: ventas/models.py class Envio. -/
structure Envio where
  venta : ℕ
  tienda : ℕ
  direccion_entrega : String
  estado : String
deriving DecidableEq

/-- Customer row: users/models.py class Cliente.  puntos_acumulados is
an IntegerField, hence a whole number of points. -/
structure Cliente where
  userId : ℕ
  puntos_acumulados : ℤ
deriving DecidableEq

/-- Relational state threaded through the settlement transaction. -/
structure DB where
  tiendas : List ℕ
  clientes : List Cliente
  tiendaClientes : List (ℕ × ℕ)
  productos : List Producto
  carritos : List Carrito
  detallesCarrito : List Detalle_Carrito
  ventas : List Venta
  detallesVenta : List Detalle_Venta
  pagos : List Pago
  envios : List Envio
  nextId : ℕ
deriving DecidableEq

/-- Exceptions that can escape the atomic block of the verification
endpoint, distinguished the way the raised messages distinguish them. -/
inductive VerifError where
  | clienteNotFound
  | tiendaNotFound
  | productoNotFound
  | insufficientStock (nombre : String)
  | totalMismatch
  | integrityPagoDuplicado
  | integrityDetalleDuplicado
  | typeErrorUnexpectedKwarg (modelo kwarg : String)
deriving DecidableEq

/-- Responses of the verification endpoint, with their HTTP statuses
kept by httpStatus below. -/
inductive Resp where
  | success
  | sessionIncomplete
  | incompleteMetadata
  | processingError (e : VerifError)
deriving DecidableEq

/-- HTTP status code attached to each response by the source. -/
def httpStatus : Resp → ℕ
  | .success => 200
  | .sessionIncomplete => 400
  | .incompleteMetadata => 500
  | .processingError _ => 500

/-- Stripe checkout session as the endpoint retrieves it: completion
status, the metadata attached at session creation and the externally
charged amount in cents (session.amount_total).  The source converts
the charged amount to Decimal(amount_total) / 100, an exact two-place
value, so in the cents representation it is used as is. -/
structure StripeSession where
  statusComplete : Bool
  userId : ℕ
  tiendaId : ℕ
  direccionEntrega : String
  items : List (ℕ × ℤ)
  paymentIntent : String
  amountTotalCents : ℤ
deriving DecidableEq

/-! ## Declared field sets against creation kwargs (claim C5)

Field-name lists transcribed from the model classes (including the
implicit id primary key Django adds) and the keyword arguments of the
row creations in the settlement path. -/

/-- Columns the Carrito model declares, comercial/models.py lines 123
to 133. -/
def carritoModelFields : List String :=
  ["id", "fecha_creacion", "tienda", "cliente"]

/-- Columns the Detalle_Carrito model declares, comercial/models.py
lines 143 to 156. -/
def detalleCarritoModelFields : List String :=
  ["id", "cantidad", "producto", "carrito"]

/-- Keyword arguments of Carrito.objects.create at ventas/views.py
lines 235 to 239. -/
def carritoCreateKwargs : List String :=
  ["cliente", "tienda", "total"]

/-- Keyword arguments of the Detalle_Carrito constructor at
ventas/views.py lines 251 to 258. -/
def detalleCarritoCreateKwargs : List String :=
  ["carrito", "producto", "cantidad", "precio_unitario"]

/-- Embedding of Carrito.objects.create at views.py lines 235 to 239.
Django Model initialization accepts only keywords naming declared
fields and raises TypeError otherwise; the total kwarg names no column
of Carrito (carritoModelFields), so this creation raises on every run
and the remainder of the atomic block is unreachable in the source.
The returned row records the values the call names, for the
counterfactual in which the column were declared. -/
def crearCarrito (db : DB) (s : StripeSession) : Except VerifError Carrito :=
  if carritoCreateKwargs.all (fun k => carritoModelFields.contains k) then
    .ok ⟨db.nextId, s.userId, s.tiendaId, s.amountTotalCents⟩
  else .error (.typeErrorUnexpectedKwarg "Carrito" "total")

/-- Embedding of TiendaCliente.objects.get_or_create at views.py lines
219 to 222. -/
def tiendaClienteGetOrCreate (db : DB) (tienda cliente : ℕ) : DB :=
  { db with tiendaClientes :=
      if db.tiendaClientes.contains (tienda, cliente) then db.tiendaClientes
      else db.tiendaClientes ++ [(tienda, cliente)] }

/-- Embedding of the item loop at views.py lines 241 to 261: each item
is looked up by primary key only (no tenant filter), its stock is
checked, the subtotal accumulates the price read under the lock, a cart
line item is staged and a stock decrement is staged.  Each iteration
reads the products table of the surrounding database because the
decrements are only applied by the bulk_update at line 304.  The
Detalle_Carrito constructor at line 251 passes the precio_unitario
kwarg, which names no declared column, so constructing the staged line
item raises TypeError: the guard mirrors Django Model initialization,
and in the source this loop is unreachable anyway because the Carrito
creation at line 235 raises first. -/
def procesarItems (productos : List Producto) (carritoId : ℕ) :
    List (ℕ × ℤ) → Except VerifError (ℤ × List Detalle_Carrito × List (ℕ × ℤ))
  | [] => .ok (0, [], [])
  | (pid, cantidad) :: rest =>
    match productos.find? (fun p => p.id = pid) with
    | none => .error .productoNotFound
    | some producto =>
      if producto.stock < cantidad then .error (.insufficientStock producto.nombre)
      else if ¬ detalleCarritoCreateKwargs.all (fun k => detalleCarritoModelFields.contains k) then
        .error (.typeErrorUnexpectedKwarg "Detalle_Carrito" "precio_unitario")
      else
        match procesarItems productos carritoId rest with
        | .error e => .error e
        | .ok (sub, dets, upds) =>
          .ok (producto.precio * cantidad + sub,
               ⟨carritoId, pid, cantidad, producto.precio⟩ :: dets,
               (pid, producto.stock - cantidad) :: upds)

/-- Sequential application of the staged stock writes, the embedding of
Producto.objects.bulk_update(productos_para_actualizar, [stock]). -/
def applyStockUpdates (productos : List Producto) : List (ℕ × ℤ) → List Producto
  | [] => productos
  | (pid, v) :: rest =>
    applyStockUpdates (productos.map fun p => if p.id = pid then { p with stock := v } else p) rest

/-- Embedding of the body of transaction.atomic at views.py lines 215
to 308.  An error value models a raised exception, which aborts the
transaction; .ok carries the committed database.  The Carrito creation
at line 235 raises TypeError on every run (crearCarrito), so every
step after it is dead code, in the source and here; the rest of the
block is embedded nonetheless, faithful to the text of the source.
The creation order of rows and the placement of the uniqueness checks
follow the source: the Pago insert hits its unique index at line 287,
the Detalle_Carrito batch hits unique_together (carrito, producto) at
line 302 (the freshly created cart cannot collide with pre-existing
line items, so only the batch itself is checked).  The total
reconciliation at line 266 compares two quantize(0.01) values; both
sides are exact whole-cent amounts here, so the comparison is the
plain integer one.  The loyalty update at lines 306 to 308 adds
total_pagado * Decimal(0.0005), that is amountTotalCents / 200000
points, to the integer column puntos_acumulados, and Django truncates
the Decimal sum toward zero when persisting the IntegerField. -/
def atomicoVerificacion (db : DB) (s : StripeSession) : Except VerifError DB :=
  match db.clientes.find? (fun c => c.userId = s.userId) with
  | none => .error .clienteNotFound
  | some cliente =>
    if ¬ db.tiendas.contains s.tiendaId then .error .tiendaNotFound
    else
      let db1 := tiendaClienteGetOrCreate db s.tiendaId s.userId
      match crearCarrito db1 s with
      | .error e => .error e
      | .ok nuevoCarrito =>
      let carritoId := nuevoCarrito.id
      let db2 := { db1 with
        carritos := db1.carritos ++ [nuevoCarrito],
        nextId := db1.nextId + 1 }
      match procesarItems db2.productos carritoId s.items with
      | .error e => .error e
      | .ok (subtotalSeguro, detallesCarrito, stockUpds) =>
        let costoEnvioSeguro := calcular_costo_envio subtotalSeguro
        let totalFinalSeguro := subtotalSeguro + costoEnvioSeguro
        if totalFinalSeguro ≠ s.amountTotalCents then .error .totalMismatch
        else
          let ventaId := db2.nextId
          let db3 := { db2 with
            ventas := db2.ventas ++ [(⟨ventaId, s.amountTotalCents, "PROCESADA", s.tiendaId, s.userId, carritoId, none⟩ : Venta)],
            nextId := db2.nextId + 1 }
          let detallesVenta := detallesCarrito.map fun (d : Detalle_Carrito) =>
            (⟨ventaId, d.producto, d.cantidad, d.precio_unitario⟩ : Detalle_Venta)
          if db3.pagos.any (fun p => p.stripe_payment_intent_id = s.paymentIntent) then
            .error .integrityPagoDuplicado
          else
            let db4 := { db3 with
              pagos := db3.pagos ++ [(⟨ventaId, s.tiendaId, s.paymentIntent, s.amountTotalCents, "COMPLETADO"⟩ : Pago)] }
            let db5 := { db4 with
              envios := db4.envios ++ [(⟨ventaId, s.tiendaId, s.direccionEntrega, "EN_PREPARACION"⟩ : Envio)] }
            if ¬ (detallesCarrito.map (fun d => d.producto)).Nodup then
              .error .integrityDetalleDuplicado
            else
              let db6 := { db5 with
                detallesCarrito := db5.detallesCarrito ++ detallesCarrito,
                detallesVenta := db5.detallesVenta ++ detallesVenta }
              let db7 := { db6 with productos := applyStockUpdates db6.productos stockUpds }
              let puntosNuevos :=
                truncTowardZero (cliente.puntos_acumulados * 200000 + s.amountTotalCents) 200000
              .ok { db7 with
                clientes := db7.clientes.map fun (c : Cliente) =>
                  if c.userId = s.userId then { c with puntos_acumulados := puntosNuevos } else c }

/-- Embedding of PagoViewSet.verificar_sesion_checkout, views.py lines
178 to 319, given the session Stripe returned.  An incomplete session
is answered 400; the all(...) guard on the metadata rejects an empty
delivery address or payment reference with 500; an exception escaping
the atomic block rolls the transaction back (the original database is
returned untouched) and is answered 500. -/
def verificar_sesion_checkout (db : DB) (s : StripeSession) : Resp × DB :=
  if ¬ s.statusComplete then (.sessionIncomplete, db)
  else if s.direccionEntrega = "" ∨ s.paymentIntent = "" then (.incompleteMetadata, db)
  else
    match atomicoVerificacion db s with
    | .ok db' => (.success, db')
    | .error e => (.processingError e, db)

/-! ## Post-save signal on Venta (ventas/models.py lines 151 to 180) -/

/-- Embedding of the body of the receiver
actualizar_conteo_ventas_vendedor: it runs after the row has been
written, so the table it queries already holds the saved instance.
count is the ventas_realizadas counter of the vendedor referenced by
the instance (the handler returns immediately when there is none). -/
def actualizar_conteo_ventas_vendedor (tabla : List Venta) (inst : Venta)
    (created : Bool) (count : ℤ) : ℤ :=
  match inst.vendedor with
  | none => count
  | some _ =>
    let count1 := if created then count + 1 else count
    if inst.estado = "CANCELADA" then
      match tabla.find? (fun v => v.id = inst.id) with
      | some original =>
        if original.estado ≠ "CANCELADA" then
          if 0 < count1 then count1 - 1 else count1
        else count1
      | none => count1
    else count1

/-- Embedding of Venta.save followed by the post_save signal: the save
writes the row (an insert when created, otherwise an update of the
existing row), then the receiver runs against the updated table. -/
def ventaSaveConSenal (tabla : List Venta) (inst : Venta) (created : Bool)
    (count : ℤ) : List Venta × ℤ :=
  let tabla' :=
    if created then tabla ++ [inst]
    else tabla.map fun v => if v.id = inst.id then inst else v
  (tabla', actualizar_conteo_ventas_vendedor tabla' inst created count)

/-! ## Audit log sink (auditoria/utils.py lines 7 to 55)

Sub-steps of log_action that can raise in Python (resolving
request.user, touching usuario.tienda which is a database-backed
foreign key, and the Bitacora insert, which in fact always raises
TypeError because the create call passes a tienda keyword the Bitacora
model does not declare) are modelled as Except-valued oracles carried
by the request value, so the theorems quantify over every possible
failure of every sub-step. -/

/-- Raised exception, abstracted to a code. -/
inductive Exc where
  | raised (code : ℕ)
deriving DecidableEq

/-- Actor as log_action sees it: its primary key and the outcome of
touching its tienda attribute (a database-backed relation). -/
structure Usuario where
  idUsuario : ℕ
  tiendaAttr : Except Exc (Option ℕ)

/-- Request as the audit helpers see it: the two META entries that
get_client_ip reads, the outcome of resolving request.user, and the
outcome of the Bitacora insert attempt. -/
structure AuditRequest where
  xForwardedFor : Option String
  remoteAddr : Option String
  userAttr : Except Exc (Option Usuario)
  insertAttr : Except Exc Unit

/-- Bitacora row with the fields the model declares (auditoria/models.py):
the tienda value resolved by log_action has no column to go to, which
is why the insert raises in the source; the row recorded here is the
one the create call names. -/
structure Bitacora where
  user : Option ℕ
  accion : String
  ip : Option String
  objeto : Option String
deriving DecidableEq

/-- Embedding of get_client_ip: first entry of a comma-separated
X-Forwarded-For when present, otherwise REMOTE_ADDR. -/
def get_client_ip (request : AuditRequest) : Option String :=
  match request.xForwardedFor with
  | some s => some (s.takeWhile (fun c => c ≠ ','))
  | none => request.remoteAddr

/-- Embedding of get_actor_usuario_from_request: the bare except in the
source turns any failure of request.user into None. -/
def get_actor_usuario_from_request (request : AuditRequest) : Option Usuario :=
  match request.userAttr with
  | .ok u => u
  | .error _ => none

/-- Resolution of tienda_actor at utils.py lines 40 to 43: absent actor
means no tienda; touching the tienda attribute of a present actor can
raise. -/
def resolveTiendaActor (usuario : Option Usuario) : Except Exc (Option ℕ) :=
  match usuario with
  | none => .ok none
  | some u => u.tiendaAttr

/-- Body of the try block of log_action (utils.py lines 35 to 51):
resolve the ip, default the actor from the request, resolve the tienda
and attempt the insert.  An error value is an exception about to
propagate out of the block. -/
def log_action_body (request : AuditRequest) (accion : String)
    (objeto : Option String) (usuario : Option Usuario) (rows : List Bitacora) :
    Except Exc (List Bitacora) :=
  let ip := get_client_ip request
  let usuarioResuelto :=
    match usuario with
    | none => get_actor_usuario_from_request request
    | some u => some u
  match resolveTiendaActor usuarioResuelto with
  | .error e => .error e
  | .ok _tiendaActor =>
    match request.insertAttr with
    | .error e => .error e
    | .ok _ =>
      .ok (rows ++ [{ user := usuarioResuelto.map (fun u => u.idUsuario),
                      accion := accion, ip := ip, objeto := objeto }])

/-- Embedding of log_action (utils.py lines 31 to 55): the whole body
sits in a try whose except Exception only prints, so a failing body
leaves the log unchanged and the call returns normally.  The result is
an Except so that the theorems can state that no exception ever
escapes to the caller. -/
def log_action (request : AuditRequest) (accion : String)
    (objeto : Option String) (usuario : Option Usuario) (rows : List Bitacora) :
    Except Exc (List Bitacora) :=
  match log_action_body request accion objeto usuario rows with
  | .ok rows' => .ok rows'
  | .error _ => .ok rows

/-- Stock of a product as stored, for stating before and after facts. -/
def stockDe (db : DB) (pid : ℕ) : Option ℤ :=
  (db.productos.find? (fun p => p.id = pid)).map (fun p => p.stock)

/-- Accumulated loyalty points of a customer as stored. -/
def puntosDe (db : DB) (uid : ℕ) : Option ℤ :=
  (db.clientes.find? (fun c => c.userId = uid)).map (fun c => c.puntos_acumulados)

/-- Tenant owning a product as stored. -/
def tiendaDe (db : DB) (pid : ℕ) : Option ℕ :=
  (db.productos.find? (fun p => p.id = pid)).map (fun p => p.tienda)

/-! ## Concrete stores and sessions used as witnesses and counterexamples -/

/-- Store with one client, one tenant and one product priced 1000.00
with stock 5, used by the C1 witness. -/
def dbC1 : DB :=
  { tiendas := [1], clientes := [⟨7, 0⟩], tiendaClientes := []
    productos := [⟨1, "Laptop", 100000, 5, 1, true⟩]
    carritos := [], detallesCarrito := [], ventas := [], detallesVenta := []
    pagos := [], envios := [], nextId := 100 }

/-- Completed session charging 999.99 for one unit of product 1, whose
recomputed total is 1000.00: the reconciliation gate must fire. -/
def sC1 : StripeSession :=
  { statusComplete := true, userId := 7, tiendaId := 1, direccionEntrega := "Calle 1"
    items := [(1, 1)], paymentIntent := "pi_C1", amountTotalCents := 99999 }

/-- Store for the C2 idempotency analysis: one product priced 1000.00
with stock 5, no prior rows. -/
def dbC2 : DB :=
  { tiendas := [1], clientes := [⟨7, 0⟩], tiendaClientes := []
    productos := [⟨1, "Laptop", 100000, 5, 1, true⟩]
    carritos := [], detallesCarrito := [], ventas := [], detallesVenta := []
    pagos := [], envios := [], nextId := 100 }

/-- Correctly charged completed session for dbC2, confirmed twice in
the C2 theorems. -/
def sC2 : StripeSession :=
  { statusComplete := true, userId := 7, tiendaId := 1, direccionEntrega := "Calle 2"
    items := [(1, 1)], paymentIntent := "pi_C2", amountTotalCents := 100000 }

/-- Store for the C3 witness: product 1 has stock 0. -/
def dbC3 : DB :=
  { tiendas := [1], clientes := [⟨7, 0⟩], tiendaClientes := []
    productos := [⟨1, "Laptop", 10000, 0, 1, true⟩]
    carritos := [], detallesCarrito := [], ventas := [], detallesVenta := []
    pagos := [], envios := [], nextId := 100 }

/-- Completed session requesting 2 units of the out-of-stock product. -/
def sC3 : StripeSession :=
  { statusComplete := true, userId := 7, tiendaId := 1, direccionEntrega := "Calle 3"
    items := [(1, 2)], paymentIntent := "pi_C3", amountTotalCents := 23000 }

/-- Store for the C6 loyalty evaluation: the customer starts with 0
accumulated points. -/
def dbC6 : DB :=
  { tiendas := [1], clientes := [⟨7, 0⟩], tiendaClientes := []
    productos := [⟨1, "Laptop", 100000, 5, 1, true⟩]
    carritos := [], detallesCarrito := [], ventas := [], detallesVenta := []
    pagos := [], envios := [], nextId := 100 }

/-- Completed session settling a total of exactly 1000.00. -/
def sC6 : StripeSession :=
  { statusComplete := true, userId := 7, tiendaId := 1, direccionEntrega := "Calle 6"
    items := [(1, 1)], paymentIntent := "pi_C6", amountTotalCents := 100000 }

/-- Store for the C7 counterexample: product 5 belongs to tenant 2. -/
def dbC7 : DB :=
  { tiendas := [1, 2], clientes := [⟨7, 0⟩], tiendaClientes := []
    productos := [⟨5, "Ajeno", 100000, 3, 2, true⟩]
    carritos := [], detallesCarrito := [], ventas := [], detallesVenta := []
    pagos := [], envios := [], nextId := 100 }

/-- Completed session settling an order of tenant 1 whose metadata
names product 5, owned by tenant 2. -/
def sC7 : StripeSession :=
  { statusComplete := true, userId := 7, tiendaId := 1, direccionEntrega := "Calle 7"
    items := [(5, 1)], paymentIntent := "pi_C7", amountTotalCents := 100000 }

/-- Store for the C8 evaluation: products A (100.00, stock 10) and B
(50.00, stock 10). -/
def dbC8 : DB :=
  { tiendas := [1], clientes := [⟨7, 0⟩], tiendaClientes := []
    productos := [⟨1, "A", 10000, 10, 1, true⟩, ⟨2, "B", 5000, 10, 1, true⟩]
    carritos := [], detallesCarrito := [], ventas := [], detallesVenta := []
    pagos := [], envios := [], nextId := 100 }

/-- Completed session whose item list carries the negative quantity -1
for product B: subtotal 2 x 100.00 - 1 x 50.00 = 150.00, shipping 10
percent = 15.00, charged amount 165.00, so every check passes. -/
def sC8 : StripeSession :=
  { statusComplete := true, userId := 7, tiendaId := 1, direccionEntrega := "Calle 8"
    items := [(1, 2), (2, -1)], paymentIntent := "pi_C8", amountTotalCents := 16500 }

/-- Request for the C9 witness: the actor resolves to no user and the
Bitacora insert raises (as it always does in the source, the create
call passing a tienda keyword the model does not declare). -/
def reqC9 : AuditRequest :=
  { xForwardedFor := none, remoteAddr := some "10.0.0.1"
    userAttr := .ok none, insertAttr := .error (.raised 0) }

/-- Venta instance for the C10 witness: created with a vendedor and
already in state CANCELADA. -/
def ventaC10 : Venta :=
  { id := 1, total := 100000, estado := "CANCELADA", tienda := 1, cliente := 7
    carrito := 50, vendedor := some 3 }

/-! ## Theorems -/

/-- Half-even rounding returns a nearest integer: the rounded value of
a / b is never further than half a unit from the exact fraction (the
bound is stated multiplied through by 2b). -/
theorem roundHalfEvenDiv_nearest (a b : ℤ) (hb : 0 < b) :
    |2 * (roundHalfEvenDiv a b * b - a)| ≤ b := by
  have h1 : b * (a.ediv b) + a.emod b = a := Int.ediv_add_emod a b
  have h2 : 0 ≤ a.emod b := Int.emod_nonneg a (by omega)
  have h3 : a.emod b < b := Int.emod_lt_of_pos a hb
  simp only [roundHalfEvenDiv]
  split_ifs with hc1 hc2 hc3
  · have e : 2 * (a.ediv b * b - a) = -(2 * a.emod b) := by linarith
    rw [e, abs_neg, abs_of_nonneg (by omega)]
    omega
  · have e : 2 * ((a.ediv b + 1) * b - a) = 2 * (b - a.emod b) := by linarith
    rw [e, abs_of_nonneg (by omega)]
    omega
  · have e : 2 * (a.ediv b * b - a) = -(2 * a.emod b) := by linarith
    rw [e, abs_neg, abs_of_nonneg (by omega)]
    omega
  · have e : 2 * ((a.ediv b + 1) * b - a) = 2 * (b - a.emod b) := by linarith
    rw [e, abs_of_nonneg (by omega)]
    omega

/-- Claim C4: for every non-negative subtotal (in cents) the shipping
cost function returns the tiered percentage of the subtotal from the
tier table stated in the specification, rounded to a whole number of
cents by rounding to nearest (never further than half a cent from the
exact percentage, hence not truncation), and the four literal examples
hold: subtotal 50.00 yields 7.50, 250.00 yields 25.00, 750.00 yields
37.50, 1000.00 yields 0. -/
theorem C4_shipping_tiered_rounding (s : ℤ) (hs : 0 ≤ s) :
    calcular_costo_envio s = roundHalfEvenDiv (s * shippingPctSpec s) 100 ∧
    |2 * (calcular_costo_envio s * 100 - s * shippingPctSpec s)| ≤ 100 ∧
    calcular_costo_envio 5000 = 750 ∧
    calcular_costo_envio 25000 = 2500 ∧
    calcular_costo_envio 75000 = 3750 ∧
    calcular_costo_envio 100000 = 0 := by
  have heq : calcular_costo_envio s = roundHalfEvenDiv (s * shippingPctSpec s) 100 := by
    simp only [calcular_costo_envio, shippingPctSpec]
    split_ifs <;> first | rfl | (exfalso; omega)
  refine ⟨heq, ?_, by decide, by decide, by decide, by decide⟩
  have hb := roundHalfEvenDiv_nearest (s * shippingPctSpec s) 100 (by norm_num)
  rw [heq]
  exact hb

/-- Witness for C4 at the concrete subtotal 50.00 (5000 cents). -/
theorem C4_shipping_tiered_rounding_witness :
    calcular_costo_envio 5000 = roundHalfEvenDiv (5000 * shippingPctSpec 5000) 100 ∧
    |2 * (calcular_costo_envio 5000 * 100 - 5000 * shippingPctSpec 5000)| ≤ 100 ∧
    calcular_costo_envio 5000 = 750 ∧
    calcular_costo_envio 25000 = 2500 ∧
    calcular_costo_envio 75000 = 3750 ∧
    calcular_costo_envio 100000 = 0 :=
  C4_shipping_tiered_rounding 5000 (by decide)

/-- An exception escaping the atomic block rolls the transaction back:
the endpoint answers 500 with the error and the database is returned
untouched. -/
theorem verificar_error_rollback (db : DB) (s : StripeSession) (e : VerifError)
    (hc : s.statusComplete = true) (hd : s.direccionEntrega ≠ "")
    (hp : s.paymentIntent ≠ "")
    (h : atomicoVerificacion db s = .error e) :
    verificar_sesion_checkout db s = (.processingError e, db) := by
  simp only [verificar_sesion_checkout, hc, hd, hp, h]
  simp

/-- Claim C5: the settlement path creates the Cart with a total keyword
and its line items with a precio_unitario keyword, but the Carrito and
Detalle_Carrito model classes declare no such columns, so in the source
these creations raise TypeError at runtime: the snapshot the claim
describes cannot be persisted by the models as declared. -/
theorem C5_cart_total_and_unit_price_columns_missing :
    "total" ∈ carritoCreateKwargs ∧ "total" ∉ carritoModelFields ∧
    "precio_unitario" ∈ detalleCarritoCreateKwargs ∧
    "precio_unitario" ∉ detalleCarritoModelFields := by decide

/-- Claim C9: whatever the outcomes of the fallible sub-steps of an
audit-log append (actor resolution, tienda access, database insert),
log_action never propagates an exception: it returns normally, and
when its body fails the log is exactly as it was, so an audit-log
failure cannot abort or alter the surrounding business transaction. -/
theorem C9_log_action_swallows_failures (request : AuditRequest) (accion : String)
    (objeto : Option String) (usuario : Option Usuario) (rows : List Bitacora) :
    (∃ rows', log_action request accion objeto usuario rows = .ok rows') ∧
    (∀ e, log_action_body request accion objeto usuario rows = .error e →
      log_action request accion objeto usuario rows = .ok rows) := by
  constructor
  · cases hb : log_action_body request accion objeto usuario rows with
    | ok rows' => exact ⟨rows', by simp [log_action, hb]⟩
    | error e => exact ⟨rows, by simp [log_action, hb]⟩
  · intro e he
    simp [log_action, he]

/-- Witness for C9 at a request whose insert step raises. -/
theorem C9_log_action_swallows_failures_witness :
    (∃ rows', log_action reqC9 "crear producto" none none [] = .ok rows') ∧
    (∀ e, log_action_body reqC9 "crear producto" none none [] = .error e →
      log_action reqC9 "crear producto" none none [] = .ok []) :=
  C9_log_action_swallows_failures reqC9 "crear producto" none none []

/-- Lookup by id after appending a row with a fresh id finds exactly
the appended row. -/
theorem find_id_append_self (l : List Venta) (x : Venta)
    (h : ∀ v ∈ l, v.id ≠ x.id) :
    (l ++ [x]).find? (fun v => v.id = x.id) = some x := by
  induction l with
  | nil => simp
  | cons a l ih =>
    have ha : ¬ (a.id = x.id) := h a (List.mem_cons_self _ _)
    have ih' := ih (fun v hv => h v (List.mem_cons_of_mem _ hv))
    simpa [List.find?_cons, ha] using ih'

/-- Lookup by id after replacing every row of that id either finds the
replacement or finds nothing. -/
theorem find_id_map_replace (l : List Venta) (x : Venta) :
    ((l.map fun v => if v.id = x.id then x else v).find? (fun v => v.id = x.id)) = some x ∨
    ((l.map fun v => if v.id = x.id then x else v).find? (fun v => v.id = x.id)) = none := by
  induction l with
  | nil => right; rfl
  | cons a l ih =>
    by_cases ha : a.id = x.id
    · left
      simp [List.find?_cons, ha]
    · simpa [List.find?_cons, ha] using ih

/-- Claim C10: the ventas_realizadas counter is monotonically
non-decreasing under the Venta post-save signal: saving a created Venta
with a non-null vendedor increments it by exactly 1 and every other
save leaves it unchanged; in particular a save with estado CANCELADA
never decrements it, because the handler re-reads the row after the
save, so the re-read state is already CANCELADA and the decrement
branch is unreachable.  The freshness hypothesis is the primary-key
uniqueness of the table on an insert. -/
theorem C10_ventas_realizadas_never_decremented (tabla : List Venta) (inst : Venta)
    (created : Bool) (count : ℤ)
    (hfresh : created = true → ∀ v ∈ tabla, v.id ≠ inst.id) :
    count ≤ (ventaSaveConSenal tabla inst created count).2 ∧
    (ventaSaveConSenal tabla inst created count).2 =
      (if created = true ∧ inst.vendedor.isSome = true then count + 1 else count) := by
  have h2 : (ventaSaveConSenal tabla inst created count).2 =
      (if created = true ∧ inst.vendedor.isSome = true then count + 1 else count) := by
    simp only [ventaSaveConSenal, actualizar_conteo_ventas_vendedor]
    cases hv : inst.vendedor with
    | none => simp
    | some vid =>
      cases created with
      | false =>
        simp only [if_neg (by simp : ¬ (false = true))]
        rcases find_id_map_replace tabla inst with hf | hf <;>
          · simp only [Bool.false_eq_true, if_false, hf]
            split_ifs <;> simp_all
      | true =>
        have hfind := find_id_append_self tabla inst (hfresh rfl)
        rw [if_pos rfl, hfind]
        split_ifs <;> simp_all
  exact ⟨by rw [h2]; split_ifs <;> omega, h2⟩

/-- Witness for C10: a Venta created directly in state CANCELADA with a
vendedor still increments the counter by 1 and nothing decrements it. -/
theorem C10_ventas_realizadas_never_decremented_witness :
    5 ≤ (ventaSaveConSenal [] ventaC10 true 5).2 ∧
    (ventaSaveConSenal [] ventaC10 true 5).2 =
      (if true = true ∧ ventaC10.vendedor.isSome = true then 5 + 1 else 5) :=
  C10_ventas_realizadas_never_decremented [] ventaC10 true 5
    (fun _ v hv => absurd hv (List.not_mem_nil v))

/-- The cart creation raises on every run: its total keyword names no
declared column of the Carrito model. -/
theorem crearCarrito_raises (db : DB) (s : StripeSession) :
    crearCarrito db s = .error (.typeErrorUnexpectedKwarg "Carrito" "total") := by
  simp only [crearCarrito]
  rw [if_neg (by decide)]

/-- The atomic block of the verification endpoint always raises: at the
latest, the cart creation at views.py line 235 does. -/
theorem atomico_siempre_error (db : DB) (s : StripeSession) :
    ∃ e, atomicoVerificacion db s = .error e := by
  simp only [atomicoVerificacion]
  cases hf : db.clientes.find? (fun c => c.userId = s.userId) with
  | none => exact ⟨.clienteNotFound, rfl⟩
  | some cliente =>
    by_cases ht : db.tiendas.contains s.tiendaId
    · have htm : s.tiendaId ∈ db.tiendas := by simpa using ht
      exact ⟨.typeErrorUnexpectedKwarg "Carrito" "total", by simp [htm, crearCarrito_raises]⟩
    · have htm : s.tiendaId ∉ db.tiendas := by simpa using ht
      exact ⟨.tiendaNotFound, by simp [htm]⟩

/-- Every call of the verification endpoint aborts: no response is a
success and the store is always returned exactly as it was. -/
theorem verificar_siempre_aborta (db : DB) (s : StripeSession) :
    (verificar_sesion_checkout db s).1 ≠ .success ∧
    (verificar_sesion_checkout db s).2 = db := by
  obtain ⟨e, he⟩ := atomico_siempre_error db s
  simp only [verificar_sesion_checkout]
  split_ifs <;> simp [he]

/-- Claim C1: the reconciliation gate is dead code.  At the concrete
mismatched input (recomputed total 1000.00, charged amount 999.99) the
endpoint does abort with nothing persisted, but with the TypeError of
the cart creation at views.py line 235 answered as 500, never with the
TotalMismatch failure the claim describes: the gate at line 266 sits
after the always-raising create and cannot be reached. -/
theorem C1_reconciliation_gate_unreachable :
    100000 + calcular_costo_envio 100000 ≠ sC1.amountTotalCents ∧
    verificar_sesion_checkout dbC1 sC1 =
      (.processingError (.typeErrorUnexpectedKwarg "Carrito" "total"), dbC1) ∧
    httpStatus (verificar_sesion_checkout dbC1 sC1).1 = 500 := by decide

/-- Claim C2: confirmation is never idempotent because it never
succeeds.  Both calls with the same session identifier are answered
with the 500 TypeError of the cart creation, and after two calls zero
Sales, zero Payments and zero Shipments exist, not the one of each
that the claim describes; no call returns a prior successful result. -/
theorem C2_both_calls_error_no_rows :
    verificar_sesion_checkout dbC2 sC2 =
      (.processingError (.typeErrorUnexpectedKwarg "Carrito" "total"), dbC2) ∧
    verificar_sesion_checkout (verificar_sesion_checkout dbC2 sC2).2 sC2 =
      (.processingError (.typeErrorUnexpectedKwarg "Carrito" "total"), dbC2) ∧
    (verificar_sesion_checkout (verificar_sesion_checkout dbC2 sC2).2 sC2).2.ventas.length = 0 ∧
    (verificar_sesion_checkout (verificar_sesion_checkout dbC2 sC2).2 sC2).2.pagos.length = 0 ∧
    (verificar_sesion_checkout (verificar_sesion_checkout dbC2 sC2).2 sC2).2.envios.length = 0 := by
  decide

/-- Claim C3: the stock validation is dead code.  At a concrete input
whose only item requests 2 units of a product with stock 0, the
transaction does abort with the store unchanged, but with the
TypeError of the cart creation at views.py line 235, not with an
InsufficientStock failure naming the product: the stock check at line
245 sits after the always-raising create and cannot be reached. -/
theorem C3_insufficient_stock_check_unreachable :
    (∃ pr ∈ sC3.items, ∃ p, dbC3.productos.find? (fun q => q.id = pr.1) = some p ∧
      p.stock < pr.2) ∧
    verificar_sesion_checkout dbC3 sC3 =
      (.processingError (.typeErrorUnexpectedKwarg "Carrito" "total"), dbC3) := by
  refine ⟨⟨(1, 2), by decide, ⟨1, "Laptop", 10000, 0, 1, true⟩, by decide, by decide⟩, ?_⟩
  decide

/-- Claim C6: a settled total of 1000.00 leaves the stored
points_accumulated counter at 0, but for a different reason than an
accrual of 0.50: the settlement aborts with the TypeError of the cart
creation before the loyalty update at views.py lines 306 to 308 ever
runs.  The last conjunct records the second defect stacked behind the
first: had the update run, persisting 0 + 1000.00 x 0.0005 into the
IntegerField column still truncates int(0.50) to 0. -/
theorem C6_loyalty_never_accrues :
    verificar_sesion_checkout dbC6 sC6 =
      (.processingError (.typeErrorUnexpectedKwarg "Carrito" "total"), dbC6) ∧
    puntosDe dbC6 7 = some 0 ∧
    puntosDe (verificar_sesion_checkout dbC6 sC6).2 7 = some 0 ∧
    truncTowardZero (0 * 200000 + sC6.amountTotalCents) 200000 = 0 := by decide

/-- Claim C7: the settlement path never materializes any Sale nor any
Sale line item for any store and session, because every run aborts at
the cart creation; in particular it never materializes a Sale
containing a product row owned by a different tenant than the tenant
named in the order.  The invariant holds vacuously: nothing in the
path checks tenants (the product lookup at views.py line 242 filters
by primary key only), it holds because the path aborts earlier. -/
theorem C7_no_sale_ever_materializes (db : DB) (s : StripeSession) :
    (verificar_sesion_checkout db s).1 ≠ .success ∧
    (verificar_sesion_checkout db s).2.ventas = db.ventas ∧
    (verificar_sesion_checkout db s).2.detallesVenta = db.detallesVenta := by
  obtain ⟨h1, h2⟩ := verificar_siempre_aborta db s
  exact ⟨h1, by rw [h2], by rw [h2]⟩

/-- Witness for C7 at the concrete cross-tenant store: the order of
tenant 1 naming a product of tenant 2 materializes nothing. -/
theorem C7_no_sale_ever_materializes_witness :
    (verificar_sesion_checkout dbC7 sC7).1 ≠ .success ∧
    (verificar_sesion_checkout dbC7 sC7).2.ventas = dbC7.ventas ∧
    (verificar_sesion_checkout dbC7 sC7).2.detallesVenta = dbC7.detallesVenta :=
  C7_no_sale_ever_materializes dbC7 sC7

/-- Claim C8: a confirmation whose item list carries the negative
quantity -1 is not rejected as a ValidationError with a 4xx signal: it
is answered 500 with the TypeError of the cart creation, exactly like
every other confirmation, because no quantity validation exists on
this path (the only quantity check the path contains is the stock
comparison at views.py line 245, which a negative quantity would
pass).  The no-side-effects part of the claim does hold: stock is
unchanged. -/
theorem C8_negative_quantity_not_validated :
    (∃ pr ∈ sC8.items, pr.2 < 0) ∧
    verificar_sesion_checkout dbC8 sC8 =
      (.processingError (.typeErrorUnexpectedKwarg "Carrito" "total"), dbC8) ∧
    httpStatus (verificar_sesion_checkout dbC8 sC8).1 = 500 ∧
    stockDe (verificar_sesion_checkout dbC8 sC8).2 1 = stockDe dbC8 1 ∧
    stockDe (verificar_sesion_checkout dbC8 sC8).2 2 = stockDe dbC8 2 := by decide
